import Mathlib

/-!
Verification of the FUSE request dispatch engine (`src/fuse_ll/src/fuse/request.rs`)
of the datenlord repository.

This file shallowly embeds the dispatch logic of `Request::dispatch` together
with the data it operates on.  The embedding targets the default (non-macOS)
platform, so the macOS-only operation variants (`SetVolName`, `GetXTimes`,
`Exchange`) are compiled out, `get_macos_setattr` returns four `None`s and
`get_position` returns `0`, exactly as in the `#[cfg(not(target_os = "macos"))]`
branches of the source.

Machine integers are modelled as `Nat` (all the wire fields are unsigned).
The single place the source casts an unsigned field to a signed type
(`arg.offset as i64`) is modelled by an explicit two's-complement
reinterpretation `toI64`.  Error codes are `Int` (C `c_int`).
-/

namespace FuseLL

/-! ## Constants

`libc` error codes used by the dispatcher (Linux values of `EIO`, `ENOSYS`,
`EPROTO`). -/

def EIO : Int := 5

def ENOSYS : Int := 38

def EPROTO : Int := 71

/-- Modelled from the spec: the ABI constant module (`super::abi::consts`) is not
under `src/`; `FUSE_ASYNC_READ` is the standard FUSE capability bit 0. -/
def FUSE_ASYNC_READ : Nat := 1

/-- Non-macOS `INIT_FLAGS`: "We generally support async reads"
(`request.rs` line 24). -/
def INIT_FLAGS : Nat := FUSE_ASYNC_READ

/-- Modelled from the spec: the implementation's own protocol major version
(`FUSE_KERNEL_VERSION` lives in the `abi` module, not under `src/`); the spec
says the minimum supported version is 7.6, the value of the reply's version
fields is immaterial to every claim. -/
def FUSE_KERNEL_VERSION : Nat := 7

/-- Modelled from the spec: the implementation's own protocol minor version
(see `FUSE_KERNEL_VERSION`). -/
def FUSE_KERNEL_MINOR_VERSION : Nat := 8

/-- Modelled from the spec: the receive-buffer capacity (`BUFFER_SIZE` lives in
the `session` module, not under `src/`); the spec fixes "the implementation's
buffer capacity at 65536". -/
def BUFFER_SIZE : Nat := 65536

/-- Modelled from the spec: the maximum write size (`MAX_WRITE_SIZE` lives in
the `session` module, not under `src/`); its value is immaterial to every
claim. -/
def MAX_WRITE_SIZE : Nat := 65536

/-- Modelled from the spec: the `FATTR_*` validity-bitmask bits (`abi` module,
not under `src/`): each attribute has "its corresponding bit"; these are the
standard kernel values, pairwise distinct powers of two. -/
def FATTR_MODE : Nat := 1

def FATTR_UID : Nat := 2

def FATTR_GID : Nat := 4

def FATTR_SIZE : Nat := 8

def FATTR_ATIME : Nat := 16

def FATTR_MTIME : Nat := 32

def FATTR_FH : Nat := 64

/-- Modelled from the spec: `FUSE_RELEASE_FLUSH` (`abi` module, not under
`src/`), "a flags bit indicates whether a flush is requested before release";
the standard kernel value is bit 0. -/
def FUSE_RELEASE_FLUSH : Nat := 1

/-- Reinterpret a `u64` value as `i64` (the source's `arg.offset as i64`). -/
def toI64 (n : Nat) : Int :=
  if n % 2 ^ 64 < 2 ^ 63 then (n % 2 ^ 64 : Int) else (n % 2 ^ 64 : Int) - 2 ^ 64

/-! ## Wire argument structs

One structure per fixed-size argument struct the dispatcher reads.  The
definitions of these structs live in the `abi` module (not under `src/`); the
fields below are exactly those `Request::dispatch` reads. -/

structure fuse_init_in where
  major : Nat
  minor : Nat
  max_readahead : Nat
  flags : Nat
  deriving DecidableEq, Repr

structure fuse_init_out where
  major : Nat
  minor : Nat
  max_readahead : Nat
  flags : Nat
  unused : Nat
  max_write : Nat
  deriving DecidableEq, Repr

structure fuse_interrupt_in where
  unique : Nat
  deriving DecidableEq, Repr

structure fuse_forget_in where
  nlookup : Nat
  deriving DecidableEq, Repr

structure fuse_setattr_in where
  valid : Nat
  fh : Nat
  size : Nat
  atime : Nat
  mtime : Nat
  atimensec : Nat
  mtimensec : Nat
  mode : Nat
  uid : Nat
  gid : Nat
  deriving DecidableEq, Repr

structure fuse_mknod_in where
  mode : Nat
  rdev : Nat
  deriving DecidableEq, Repr

structure fuse_mkdir_in where
  mode : Nat
  deriving DecidableEq, Repr

structure fuse_rename_in where
  newdir : Nat
  deriving DecidableEq, Repr

structure fuse_link_in where
  oldnodeid : Nat
  deriving DecidableEq, Repr

structure fuse_open_in where
  flags : Nat
  mode : Nat
  deriving DecidableEq, Repr

structure fuse_read_in where
  fh : Nat
  offset : Nat
  size : Nat
  deriving DecidableEq, Repr

structure fuse_write_in where
  fh : Nat
  offset : Nat
  size : Nat
  write_flags : Nat
  deriving DecidableEq, Repr

structure fuse_flush_in where
  fh : Nat
  lock_owner : Nat
  deriving DecidableEq, Repr

structure fuse_release_in where
  fh : Nat
  flags : Nat
  release_flags : Nat
  lock_owner : Nat
  deriving DecidableEq, Repr

structure fuse_fsync_in where
  fh : Nat
  fsync_flags : Nat
  deriving DecidableEq, Repr

structure fuse_file_lock where
  start : Nat
  end_ : Nat
  typ : Nat
  pid : Nat
  deriving DecidableEq, Repr

structure fuse_lk_in where
  fh : Nat
  owner : Nat
  lk : fuse_file_lock
  deriving DecidableEq, Repr

structure fuse_setxattr_in where
  size : Nat
  flags : Nat
  deriving DecidableEq, Repr

structure fuse_getxattr_in where
  size : Nat
  deriving DecidableEq, Repr

structure fuse_access_in where
  mask : Nat
  deriving DecidableEq, Repr

structure fuse_bmap_in where
  block : Nat
  blocksize : Nat
  deriving DecidableEq, Repr

/-! ## Operations

The closed tagged union of decoded kernel operations (`ll_request::Operation`;
the decoder module is not under `src/`, so the variant payloads are modelled
from how `Request::dispatch` destructures each variant together with the
spec's §3 operation list, non-macOS platform).  Names and byte payloads are
`List Nat` byte strings. -/

inductive Operation where
  | Init (arg : fuse_init_in)
  | Destroy
  | Interrupt (arg : fuse_interrupt_in)
  | Lookup (name : List Nat)
  | Forget (arg : fuse_forget_in)
  | GetAttr
  | SetAttr (arg : fuse_setattr_in)
  | ReadLink
  | MkNod (arg : fuse_mknod_in) (name : List Nat)
  | MkDir (arg : fuse_mkdir_in) (name : List Nat)
  | Unlink (name : List Nat)
  | RmDir (name : List Nat)
  | SymLink (name : List Nat) (link : List Nat)
  | Rename (arg : fuse_rename_in) (name : List Nat) (newname : List Nat)
  | Link (arg : fuse_link_in) (name : List Nat)
  | Open (arg : fuse_open_in)
  | Read (arg : fuse_read_in)
  | Write (arg : fuse_write_in) (data : List Nat)
  | Flush (arg : fuse_flush_in)
  | Release (arg : fuse_release_in)
  | FSync (arg : fuse_fsync_in)
  | OpenDir (arg : fuse_open_in)
  | ReadDir (arg : fuse_read_in)
  | ReleaseDir (arg : fuse_release_in)
  | FSyncDir (arg : fuse_fsync_in)
  | StatFs
  | SetXAttr (arg : fuse_setxattr_in) (name : List Nat) (value : List Nat)
  | GetXAttr (arg : fuse_getxattr_in) (name : List Nat)
  | ListXAttr (arg : fuse_getxattr_in)
  | RemoveXAttr (name : List Nat)
  | Access (arg : fuse_access_in)
  | Create (arg : fuse_open_in) (name : List Nat)
  | GetLk (arg : fuse_lk_in)
  | SetLk (arg : fuse_lk_in)
  | SetLkW (arg : fuse_lk_in)
  | BMap (arg : fuse_bmap_in)
  deriving DecidableEq, Repr

/-- Whether the operation is the handshake (`Operation::Init`). -/
def Operation.isInit : Operation → Bool
  | .Init _ => true
  | _ => false

/-- Whether the operation is the teardown (`Operation::Destroy`). -/
def Operation.isDestroy : Operation → Bool
  | .Destroy => true
  | _ => false

/-- The parsed request (`Request`): the fixed header fields plus the decoded
operation. -/
structure Request where
  unique : Nat
  nodeid : Nat
  uid : Nat
  gid : Nat
  pid : Nat
  operation : Operation
  deriving DecidableEq, Repr

/-- Session state (`session::Session`, fields mutated by `Request::dispatch`).
The filesystem implementation itself is not part of the state: dispatch
records which capability method it invokes as an event (see `FsCall`). -/
structure Session where
  proto_major : Nat
  proto_minor : Nat
  initialized : Bool
  destroyed : Bool
  deriving DecidableEq, Repr

/-- The optional attribute values `Request::dispatch` derives from a
`fuse_setattr_in` and hands to `Filesystem::setattr` (times are
(seconds, nanoseconds) offsets from the epoch). -/
structure SetAttrValues where
  mode : Option Nat
  uid : Option Nat
  gid : Option Nat
  size : Option Nat
  atime : Option (Nat × Nat)
  mtime : Option (Nat × Nat)
  fh : Option Nat
  crtime : Option (Nat × Nat)
  chgtime : Option (Nat × Nat)
  bkuptime : Option (Nat × Nat)
  flags : Option Nat
  deriving DecidableEq, Repr

/-- The bitmask-driven optional-field derivation of the `Operation::SetAttr`
arm (`request.rs` lines 143-231): each attribute is `some` exactly when its
validity bit is set; on the non-macOS platform `get_macos_setattr` yields
four `none`s. -/
def setattrValues (arg : fuse_setattr_in) : SetAttrValues where
  mode := if arg.valid &&& FATTR_MODE = 0 then none else some arg.mode
  uid := if arg.valid &&& FATTR_UID = 0 then none else some arg.uid
  gid := if arg.valid &&& FATTR_GID = 0 then none else some arg.gid
  size := if arg.valid &&& FATTR_SIZE = 0 then none else some arg.size
  atime := if arg.valid &&& FATTR_ATIME = 0 then none
           else some (arg.atime, arg.atimensec)
  mtime := if arg.valid &&& FATTR_MTIME = 0 then none
           else some (arg.mtime, arg.mtimensec)
  fh := if arg.valid &&& FATTR_FH = 0 then none else some arg.fh
  crtime := none
  chgtime := none
  bkuptime := none
  flags := none

/-! ## Dispatch events

`dispatch` is modelled as a pure function returning the updated session plus
the observable events of one dispatch call: the filesystem capability methods
invoked, the replies the dispatcher itself sent, the reply objects it handed
to the filesystem, and whether a fatal integrity assertion fired. -/

/-- One invocation of a filesystem capability method, with the arguments the
dispatcher derives (the `self` request context is left implicit). -/
inductive FsCall where
  | init
  | destroy
  | lookup (nodeid : Nat) (name : List Nat)
  | forget (nodeid : Nat) (nlookup : Nat)
  | getattr (nodeid : Nat)
  | setattr (nodeid : Nat) (v : SetAttrValues)
  | readlink (nodeid : Nat)
  | mknod (nodeid : Nat) (name : List Nat) (mode : Nat) (rdev : Nat)
  | mkdir (nodeid : Nat) (name : List Nat) (mode : Nat)
  | unlink (nodeid : Nat) (name : List Nat)
  | rmdir (nodeid : Nat) (name : List Nat)
  | symlink (nodeid : Nat) (name : List Nat) (link : List Nat)
  | rename (parent : Nat) (name : List Nat) (newparent : Nat) (newname : List Nat)
  | link (oldnodeid : Nat) (newparent : Nat) (name : List Nat)
  | open_ (nodeid : Nat) (flags : Nat)
  | read (nodeid : Nat) (fh : Nat) (offset : Int) (size : Nat)
  | write (nodeid : Nat) (fh : Nat) (offset : Int) (data : List Nat) (write_flags : Nat)
  | flush (nodeid : Nat) (fh : Nat) (lock_owner : Nat)
  | release (nodeid : Nat) (fh : Nat) (flags : Nat) (lock_owner : Nat) (flush : Bool)
  | fsync (nodeid : Nat) (fh : Nat) (datasync : Bool)
  | opendir (nodeid : Nat) (flags : Nat)
  | readdir (nodeid : Nat) (fh : Nat) (offset : Int)
  | releasedir (nodeid : Nat) (fh : Nat) (flags : Nat)
  | fsyncdir (nodeid : Nat) (fh : Nat) (datasync : Bool)
  | statfs (nodeid : Nat)
  | setxattr (nodeid : Nat) (name : List Nat) (value : List Nat) (flags : Nat) (position : Nat)
  | getxattr (nodeid : Nat) (name : List Nat) (size : Nat)
  | listxattr (nodeid : Nat) (size : Nat)
  | removexattr (nodeid : Nat) (name : List Nat)
  | access (nodeid : Nat) (mask : Nat)
  | create (nodeid : Nat) (name : List Nat) (mode : Nat) (flags : Nat)
  | getlk (nodeid : Nat) (fh : Nat) (owner : Nat) (start : Nat) (end_ : Nat) (typ : Nat) (pid : Nat)
  | setlk (nodeid : Nat) (fh : Nat) (owner : Nat) (start : Nat) (end_ : Nat) (typ : Nat) (pid : Nat) (sleep : Bool)
  | bmap (nodeid : Nat) (blocksize : Nat) (block : Nat)
  deriving DecidableEq, Repr

/-- A reply the dispatcher itself sends through a reply object it consumes. -/
inductive ReplyKind where
  | error (errno : Int)
  | okEmpty
  | okInit (out : fuse_init_out)
  deriving DecidableEq, Repr

/-- A reply sent by the dispatcher: the correlation id it was bound to and its
payload kind. -/
structure ReplyEvent where
  unique : Nat
  kind : ReplyKind
  deriving DecidableEq, Repr

/-- A reply object handed to the filesystem capability, bound to a correlation
id; `budget` is `some size` for the size-bounded `ReplyDirectory` of
`ReadDir`, `none` for the default reply objects built by `Request::reply`. -/
structure ReplyObject where
  unique : Nat
  budget : Option Nat
  deriving DecidableEq, Repr

/-- The observable outcome of one `Request::dispatch` call. -/
structure DispatchResult where
  session : Session
  calls : List FsCall
  sent : List ReplyEvent
  handed : List ReplyObject
  panicked : Bool
  deriving DecidableEq, Repr

/-- Outcome where the dispatcher itself sends one reply and does nothing else. -/
def sendReply (se : Session) (u : Nat) (k : ReplyKind) : DispatchResult where
  session := se
  calls := []
  sent := [⟨u, k⟩]
  handed := []
  panicked := false

/-- Outcome where one filesystem method is invoked and given a default reply
object bound to the request's correlation id (`Request::reply`,
`request.rs` lines 522-526). -/
def invoke (u : Nat) (se : Session) (c : FsCall) : DispatchResult where
  session := se
  calls := [c]
  sent := []
  handed := [⟨u, none⟩]
  panicked := false

/-- The session-state guards every arm below the `Destroy` arm sits behind:
in the source these are the ordered match guards `_ if !se.initialized`
(line 109) and `_ if se.destroyed` (line 120); an arm after them is reached
only when both fail. -/
def stateChecks (se : Session) (u : Nat) (r : DispatchResult) : DispatchResult :=
  if !se.initialized then sendReply se u (.error EIO)
  else if se.destroyed then sendReply se u (.error EIO)
  else r

/-- `Request::dispatch` (`request.rs` lines 62-520), non-macOS platform.

The match-arm order of the source is significant and preserved:
`Init` is matched first unconditionally; the `_ if !se.initialized` guard
covers every other operation; `Destroy` is matched before the
`_ if se.destroyed` guard; every remaining arm sits behind both guards
(`stateChecks`).  `initRes` is the value returned by the pluggable
filesystem's `init` hook, consulted only on the `Init` path. -/
def dispatch (req : Request) (se : Session) (initRes : Except Int Unit) : DispatchResult :=
  match req.operation with
  | .Init arg =>
    -- We don't support ABI versions before 7.6
    if arg.major < 7 ∨ (arg.major = 7 ∧ arg.minor < 6) then
      sendReply se req.unique (.error EPROTO)
    else
      -- Remember ABI version supported by kernel
      let se := { se with proto_major := arg.major, proto_minor := arg.minor }
      -- Call filesystem init method and give it a chance to return an error
      match initRes with
      | .error err =>
        { session := se, calls := [.init], sent := [⟨req.unique, .error err⟩],
          handed := [], panicked := false }
      | .ok _ =>
        let init : fuse_init_out :=
          { major := FUSE_KERNEL_VERSION
            minor := FUSE_KERNEL_MINOR_VERSION
            max_readahead := if BUFFER_SIZE < arg.max_readahead then BUFFER_SIZE
                             else arg.max_readahead
            flags := arg.flags &&& INIT_FLAGS
            unused := 0
            max_write := MAX_WRITE_SIZE }
        { session := { se with initialized := true }, calls := [.init],
          sent := [⟨req.unique, .okInit init⟩], handed := [], panicked := false }
  | .Destroy =>
    if !se.initialized then sendReply se req.unique (.error EIO)
    else
      { session := { se with destroyed := true }, calls := [.destroy],
        sent := [⟨req.unique, .okEmpty⟩], handed := [], panicked := false }
  | .Interrupt _ =>
    stateChecks se req.unique (sendReply se req.unique (.error ENOSYS))
  | .Lookup name =>
    stateChecks se req.unique (invoke req.unique se (.lookup req.nodeid name))
  | .Forget arg =>
    stateChecks se req.unique
      { session := se, calls := [.forget req.nodeid arg.nlookup],
        sent := [], handed := [], panicked := false }  -- no reply
  | .GetAttr =>
    stateChecks se req.unique (invoke req.unique se (.getattr req.nodeid))
  | .SetAttr arg =>
    stateChecks se req.unique
      (invoke req.unique se (.setattr req.nodeid (setattrValues arg)))
  | .ReadLink =>
    stateChecks se req.unique (invoke req.unique se (.readlink req.nodeid))
  | .MkNod arg name =>
    stateChecks se req.unique
      (invoke req.unique se (.mknod req.nodeid name arg.mode arg.rdev))
  | .MkDir arg name =>
    stateChecks se req.unique (invoke req.unique se (.mkdir req.nodeid name arg.mode))
  | .Unlink name =>
    stateChecks se req.unique (invoke req.unique se (.unlink req.nodeid name))
  | .RmDir name =>
    stateChecks se req.unique (invoke req.unique se (.rmdir req.nodeid name))
  | .SymLink name link =>
    stateChecks se req.unique (invoke req.unique se (.symlink req.nodeid name link))
  | .Rename arg name newname =>
    stateChecks se req.unique
      (invoke req.unique se (.rename req.nodeid name arg.newdir newname))
  | .Link arg name =>
    stateChecks se req.unique
      (invoke req.unique se (.link arg.oldnodeid req.nodeid name))
  | .Open arg =>
    stateChecks se req.unique (invoke req.unique se (.open_ req.nodeid arg.flags))
  | .Read arg =>
    stateChecks se req.unique
      (invoke req.unique se (.read req.nodeid arg.fh (toI64 arg.offset) arg.size))
  | .Write arg data =>
    stateChecks se req.unique
      (if data.length = arg.size then
        invoke req.unique se
          (.write req.nodeid arg.fh (toI64 arg.offset) data arg.write_flags)
      else
        -- assert_eq!(data.len(), arg.size as usize) fails: fatal assertion
        { session := se, calls := [], sent := [], handed := [], panicked := true })
  | .Flush arg =>
    stateChecks se req.unique
      (invoke req.unique se (.flush req.nodeid arg.fh arg.lock_owner))
  | .Release arg =>
    stateChecks se req.unique
      (invoke req.unique se
        (.release req.nodeid arg.fh arg.flags arg.lock_owner
          (if arg.release_flags &&& FUSE_RELEASE_FLUSH = 0 then false else true)))
  | .FSync arg =>
    stateChecks se req.unique
      (invoke req.unique se
        (.fsync req.nodeid arg.fh (if arg.fsync_flags &&& 1 = 0 then false else true)))
  | .OpenDir arg =>
    stateChecks se req.unique (invoke req.unique se (.opendir req.nodeid arg.flags))
  | .ReadDir arg =>
    stateChecks se req.unique
      { session := se, calls := [.readdir req.nodeid arg.fh (toI64 arg.offset)],
        sent := [], handed := [⟨req.unique, some arg.size⟩], panicked := false }
  | .ReleaseDir arg =>
    stateChecks se req.unique
      (invoke req.unique se (.releasedir req.nodeid arg.fh arg.flags))
  | .FSyncDir arg =>
    stateChecks se req.unique
      (invoke req.unique se
        (.fsyncdir req.nodeid arg.fh (if arg.fsync_flags &&& 1 = 0 then false else true)))
  | .StatFs =>
    stateChecks se req.unique (invoke req.unique se (.statfs req.nodeid))
  | .SetXAttr arg name value =>
    stateChecks se req.unique
      (if value.length = arg.size then
        -- non-macOS get_position always yields 0
        invoke req.unique se (.setxattr req.nodeid name value arg.flags 0)
      else
        -- assert!(value.len() == arg.size as usize) fails: fatal assertion
        { session := se, calls := [], sent := [], handed := [], panicked := true })
  | .GetXAttr arg name =>
    stateChecks se req.unique
      (invoke req.unique se (.getxattr req.nodeid name arg.size))
  | .ListXAttr arg =>
    stateChecks se req.unique (invoke req.unique se (.listxattr req.nodeid arg.size))
  | .RemoveXAttr name =>
    stateChecks se req.unique (invoke req.unique se (.removexattr req.nodeid name))
  | .Access arg =>
    stateChecks se req.unique (invoke req.unique se (.access req.nodeid arg.mask))
  | .Create arg name =>
    stateChecks se req.unique
      (invoke req.unique se (.create req.nodeid name arg.mode arg.flags))
  | .GetLk arg =>
    stateChecks se req.unique
      (invoke req.unique se
        (.getlk req.nodeid arg.fh arg.owner arg.lk.start arg.lk.end_ arg.lk.typ arg.lk.pid))
  | .SetLk arg =>
    stateChecks se req.unique
      (invoke req.unique se
        (.setlk req.nodeid arg.fh arg.owner arg.lk.start arg.lk.end_ arg.lk.typ arg.lk.pid false))
  | .SetLkW arg =>
    stateChecks se req.unique
      (invoke req.unique se
        (.setlk req.nodeid arg.fh arg.owner arg.lk.start arg.lk.end_ arg.lk.typ arg.lk.pid true))
  | .BMap arg =>
    stateChecks se req.unique
      (invoke req.unique se (.bmap req.nodeid arg.blocksize arg.block))

/-! ## Reply wire bytes

Little-endian byte serialization, used to state that the correlation id is
echoed unchanged in the reply bytes. -/

/-- The `k` little-endian bytes of `n`. -/
def toBytesLE : Nat → Nat → List Nat
  | 0, _ => []
  | k + 1, n => n % 256 :: toBytesLE k (n / 256)

/-- Decode a little-endian byte list. -/
def fromBytesLE : List Nat → Nat
  | [] => 0
  | b :: bs => b + 256 * fromBytesLE bs

/-- Modelled from the spec: the reply encoder (the `reply` module, not under
`src/`) prefixes every reply with the fixed header
`{len : u32, error : i32, unique : u64}` (spec §6), the correlation id
"echoed unchanged" in the third field. -/
def replyHeaderBytes (len errv unique : Nat) : List Nat :=
  toBytesLE 4 len ++ toBytesLE 4 errv ++ toBytesLE 8 unique

theorem toBytesLE_length (k : Nat) : ∀ n, (toBytesLE k n).length = k := by
  induction k with
  | zero => intro n; simp [toBytesLE]
  | succ k ih => intro n; simp [toBytesLE, ih]

theorem fromBytesLE_toBytesLE (k : Nat) :
    ∀ n, fromBytesLE (toBytesLE k n) = n % 256 ^ k := by
  induction k with
  | zero => intro n; simp [toBytesLE, fromBytesLE, Nat.mod_one]
  | succ k ih =>
    intro n
    simp only [toBytesLE, fromBytesLE, ih]
    rw [pow_succ']
    exact Nat.mod_mul.symm

theorem replyHeaderBytes_drop (len errv u : Nat) :
    (replyHeaderBytes len errv u).drop 8 = toBytesLE 8 u := by
  have h : (toBytesLE 4 len ++ toBytesLE 4 errv).length = 8 := by
    simp [toBytesLE_length]
  rw [replyHeaderBytes]
  exact List.drop_left' h

/-! ## Claims -/

/-- C2: a handshake whose advertised version passes the check
(major > 7, or major = 7 and minor ≥ 6) and whose filesystem `init` hook
succeeds gets a success reply whose max-readahead is the minimum of the
kernel's requested `max_readahead` and the implementation's buffer capacity
and whose flags are the intersection of the kernel's flags with `INIT_FLAGS`,
and the session becomes initialized. -/
theorem init_success_negotiation (u nid ui g p : Nat) (arg : fuse_init_in)
    (se : Session) (hv : 7 < arg.major ∨ (arg.major = 7 ∧ 6 ≤ arg.minor)) :
    dispatch ⟨u, nid, ui, g, p, .Init arg⟩ se (.ok ()) =
      { session := { se with proto_major := arg.major, proto_minor := arg.minor,
                             initialized := true }
        calls := [.init]
        sent := [⟨u, .okInit
          { major := FUSE_KERNEL_VERSION
            minor := FUSE_KERNEL_MINOR_VERSION
            max_readahead := min BUFFER_SIZE arg.max_readahead
            flags := arg.flags &&& INIT_FLAGS
            unused := 0
            max_write := MAX_WRITE_SIZE }⟩]
        handed := []
        panicked := false } := by
  have hc : ¬(arg.major < 7 ∨ (arg.major = 7 ∧ arg.minor < 6)) := by omega
  have hmin : (if BUFFER_SIZE < arg.max_readahead then BUFFER_SIZE
      else arg.max_readahead) = min BUFFER_SIZE arg.max_readahead := by
    split <;> omega
  simp only [dispatch]
  rw [if_neg hc, hmin]

/-- C2 witness: a handshake advertising major=7, minor=31, readahead=131072
with buffer capacity 65536 yields max-readahead=65536 and an initialized
session. -/
theorem init_success_negotiation_witness :
    (7 < 7 ∨ (7 = 7 ∧ 6 ≤ 31)) ∧
    (dispatch ⟨9, 0, 0, 0, 0, .Init ⟨7, 31, 131072, 3⟩⟩ ⟨0, 0, false, false⟩
        (.ok ())).sent =
      [⟨9, .okInit ⟨7, 8, 65536, 1, 0, 65536⟩⟩] ∧
    (dispatch ⟨9, 0, 0, 0, 0, .Init ⟨7, 31, 131072, 3⟩⟩ ⟨0, 0, false, false⟩
        (.ok ())).session.initialized = true := by
  have h := init_success_negotiation 9 0 0 0 0 ⟨7, 31, 131072, 3⟩
    ⟨0, 0, false, false⟩ (by decide)
  refine ⟨by decide, ?_, ?_⟩
  · rw [h]; decide
  · rw [h]

/-- C3: a handshake whose advertised version has major < 7, or major = 7 and
minor < 6, is replied with EPROTO and the session is unchanged (it remains
uninitialized and the filesystem `init` hook is not invoked). -/
theorem init_version_rejected (u nid ui g p : Nat) (arg : fuse_init_in)
    (se : Session) (initRes : Except Int Unit)
    (hv : arg.major < 7 ∨ (arg.major = 7 ∧ arg.minor < 6)) :
    dispatch ⟨u, nid, ui, g, p, .Init arg⟩ se initRes =
      sendReply se u (.error EPROTO) := by
  simp only [dispatch]
  rw [if_pos hv]

/-- C3 witness: a handshake advertising major=7, minor=5 is rejected with
EPROTO: no filesystem method is invoked and the session stays uninitialized. -/
theorem init_version_rejected_witness :
    ((7 : Nat) < 7 ∨ ((7 : Nat) = 7 ∧ (5 : Nat) < 6)) ∧
    dispatch ⟨4, 0, 0, 0, 0, .Init ⟨7, 5, 131072, 3⟩⟩ ⟨0, 0, false, false⟩
        (.ok ()) =
      { session := ⟨0, 0, false, false⟩, calls := [],
        sent := [⟨4, .error EPROTO⟩], handed := [], panicked := false } := by
  refine ⟨by decide, ?_⟩
  rw [init_version_rejected 4 0 0 0 0 ⟨7, 5, 131072, 3⟩ ⟨0, 0, false, false⟩
    (.ok ()) (by decide)]
  decide

/-- C10: during a handshake whose version check passes, the session's
`proto_major`/`proto_minor` are overwritten with the kernel's advertised
values even when the filesystem `init` hook fails: the reply then carries the
hook's error, the `initialized` flag is unchanged (stays false when it was
false), but the recorded protocol version has been mutated. -/
theorem init_hook_failure_mutates_version (u nid ui g p : Nat)
    (arg : fuse_init_in) (se : Session) (err : Int)
    (hv : 7 < arg.major ∨ (arg.major = 7 ∧ 6 ≤ arg.minor)) :
    dispatch ⟨u, nid, ui, g, p, .Init arg⟩ se (.error err) =
      { session := { se with proto_major := arg.major, proto_minor := arg.minor }
        calls := [.init]
        sent := [⟨u, .error err⟩]
        handed := []
        panicked := false } ∧
    (se.initialized = false →
      (dispatch ⟨u, nid, ui, g, p, .Init arg⟩ se (.error err)).session.initialized
        = false) := by
  have hc : ¬(arg.major < 7 ∨ (arg.major = 7 ∧ arg.minor < 6)) := by omega
  constructor
  · simp [dispatch, hc]
  · intro h
    simp [dispatch, hc, h]

/-- C10 witness: a handshake advertising 7.31 on an uninitialized session
whose `init` hook fails with error 12 leaves the session uninitialized but
with protocol version 7.31 recorded, and replies with error 12. -/
theorem init_hook_failure_mutates_version_witness :
    (7 < 7 ∨ (7 = 7 ∧ 6 ≤ 31)) ∧
    dispatch ⟨5, 0, 0, 0, 0, .Init ⟨7, 31, 131072, 3⟩⟩ ⟨0, 0, false, false⟩
        (.error 12) =
      { session := ⟨7, 31, false, false⟩, calls := [.init],
        sent := [⟨5, .error 12⟩], handed := [], panicked := false } := by
  refine ⟨by decide, ?_⟩
  rw [(init_hook_failure_mutates_version 5 0 0 0 0 ⟨7, 31, 131072, 3⟩
    ⟨0, 0, false, false⟩ 12 (by decide)).1]

/-- C1 counterexample: the claim fails on the teardown and handshake opcodes.
On a destroyed (and initialized) session, a second `Destroy` is matched by the
`Destroy` arm before the `_ if se.destroyed` guard: the filesystem's
`destroy` hook is invoked again and an empty success reply — not an EIO
error reply — is sent. -/
theorem destroyed_claim_counterexample :
    (dispatch ⟨1, 0, 0, 0, 0, .Destroy⟩ ⟨7, 8, true, true⟩ (.ok ())).calls
      = [.destroy] ∧
    (dispatch ⟨1, 0, 0, 0, 0, .Destroy⟩ ⟨7, 8, true, true⟩ (.ok ())).sent
      = [⟨1, .okEmpty⟩] ∧
    ReplyKind.okEmpty ≠ ReplyKind.error EIO := by
  decide

/-- C1 (amended): every operation other than the handshake (`Init`) and the
teardown (`Destroy`) dispatched while the session's `destroyed` flag is true
is answered by the dispatcher itself with an EIO error reply, no filesystem
capability method is invoked, and the session is unchanged. -/
theorem dispatch_after_destroy_eio (req : Request) (se : Session)
    (initRes : Except Int Unit) (hd : se.destroyed = true)
    (h1 : req.operation.isInit = false) (h2 : req.operation.isDestroy = false) :
    dispatch req se initRes = sendReply se req.unique (.error EIO) := by
  obtain ⟨u, nid, ui, g, p, op⟩ := req
  cases op <;>
    simp_all [dispatch, stateChecks, Operation.isInit, Operation.isDestroy]

/-- C1 witness: a `getattr` dispatched on a destroyed session is answered
with EIO and invokes nothing. -/
theorem dispatch_after_destroy_eio_witness :
    (⟨7, 8, true, true⟩ : Session).destroyed = true ∧
    Operation.GetAttr.isInit = false ∧
    Operation.GetAttr.isDestroy = false ∧
    dispatch ⟨3, 5, 0, 0, 0, .GetAttr⟩ ⟨7, 8, true, true⟩ (.ok ()) =
      sendReply ⟨7, 8, true, true⟩ 3 (.error EIO) := by
  refine ⟨by decide, by decide, by decide, ?_⟩
  exact dispatch_after_destroy_eio ⟨3, 5, 0, 0, 0, .GetAttr⟩ ⟨7, 8, true, true⟩
    (.ok ()) (by decide) (by decide) (by decide)

/-- C4: every operation other than the handshake (`Init`) dispatched while
the session's `initialized` flag is false is answered by the dispatcher
itself with an EIO error reply, no filesystem capability method is invoked,
and the session (initialized flag, destroyed flag, negotiated version) is
unchanged. -/
theorem dispatch_before_init_eio (req : Request) (se : Session)
    (initRes : Except Int Unit) (hi : se.initialized = false)
    (h1 : req.operation.isInit = false) :
    dispatch req se initRes = sendReply se req.unique (.error EIO) := by
  obtain ⟨u, nid, ui, g, p, op⟩ := req
  cases op <;> simp_all [dispatch, stateChecks, Operation.isInit]

/-- C4 witness: a `lookup` dispatched on an uninitialized session is answered
with EIO, invokes nothing and leaves the session unchanged. -/
theorem dispatch_before_init_eio_witness :
    (⟨0, 0, false, false⟩ : Session).initialized = false ∧
    (Operation.Lookup [97]).isInit = false ∧
    dispatch ⟨2, 1, 0, 0, 0, .Lookup [97]⟩ ⟨0, 0, false, false⟩ (.ok ()) =
      sendReply ⟨0, 0, false, false⟩ 2 (.error EIO) := by
  refine ⟨by decide, by decide, ?_⟩
  exact dispatch_before_init_eio ⟨2, 1, 0, 0, 0, .Lookup [97]⟩
    ⟨0, 0, false, false⟩ (.ok ()) (by decide) (by decide)

/-- C5: for a `write` dispatched in the initialized, non-destroyed state,
if the trailing payload length differs from the declared `size` field the
fatal integrity assertion fires and the filesystem's `write` method is never
invoked (no reply, no call); if they agree, the assertion passes and `write`
is invoked with the payload. -/
theorem write_size_assertion (u nid ui g p : Nat) (arg : fuse_write_in)
    (data : List Nat) (se : Session) (initRes : Except Int Unit)
    (hi : se.initialized = true) (hd : se.destroyed = false) :
    (data.length ≠ arg.size →
      dispatch ⟨u, nid, ui, g, p, .Write arg data⟩ se initRes =
        { session := se, calls := [], sent := [], handed := [],
          panicked := true }) ∧
    (data.length = arg.size →
      dispatch ⟨u, nid, ui, g, p, .Write arg data⟩ se initRes =
        invoke u se
          (.write nid arg.fh (toI64 arg.offset) data arg.write_flags)) := by
  constructor <;> intro h <;> simp [dispatch, stateChecks, hi, hd, h]

/-- C5 witness: a write declaring size 3 with a 2-byte payload panics and
invokes nothing; a write declaring size 2 with a 2-byte payload invokes
`write` with the payload. -/
theorem write_size_assertion_witness :
    (⟨7, 8, true, false⟩ : Session).initialized = true ∧
    (⟨7, 8, true, false⟩ : Session).destroyed = false ∧
    dispatch ⟨6, 2, 0, 0, 0, .Write ⟨1, 0, 3, 0⟩ [10, 11]⟩ ⟨7, 8, true, false⟩
        (.ok ()) =
      { session := ⟨7, 8, true, false⟩, calls := [], sent := [], handed := [],
        panicked := true } ∧
    dispatch ⟨6, 2, 0, 0, 0, .Write ⟨1, 0, 2, 0⟩ [10, 11]⟩ ⟨7, 8, true, false⟩
        (.ok ()) =
      invoke 6 ⟨7, 8, true, false⟩ (.write 2 1 (toI64 0) [10, 11] 0) := by
  refine ⟨by decide, by decide, ?_, ?_⟩
  · exact (write_size_assertion 6 2 0 0 0 ⟨1, 0, 3, 0⟩ [10, 11]
      ⟨7, 8, true, false⟩ (.ok ()) (by decide) (by decide)).1 (by decide)
  · exact (write_size_assertion 6 2 0 0 0 ⟨1, 0, 2, 0⟩ [10, 11]
      ⟨7, 8, true, false⟩ (.ok ()) (by decide) (by decide)).2 (by decide)

/-- C7: a `setattr` dispatched in the initialized, non-destroyed state
invokes the filesystem's `setattr` with each attribute surfaced as `some`
exactly when its validity bit is set (carrying the wire value) and `none`
otherwise; the extended-timestamp attributes are absent on this platform. -/
theorem setattr_bitmask_options (u nid ui g p : Nat) (arg : fuse_setattr_in)
    (se : Session) (initRes : Except Int Unit)
    (hi : se.initialized = true) (hd : se.destroyed = false) :
    (dispatch ⟨u, nid, ui, g, p, .SetAttr arg⟩ se initRes).calls =
      [.setattr nid (setattrValues arg)] ∧
    (setattrValues arg).mode =
      (if arg.valid &&& FATTR_MODE ≠ 0 then some arg.mode else none) ∧
    (setattrValues arg).uid =
      (if arg.valid &&& FATTR_UID ≠ 0 then some arg.uid else none) ∧
    (setattrValues arg).gid =
      (if arg.valid &&& FATTR_GID ≠ 0 then some arg.gid else none) ∧
    (setattrValues arg).size =
      (if arg.valid &&& FATTR_SIZE ≠ 0 then some arg.size else none) ∧
    (setattrValues arg).atime =
      (if arg.valid &&& FATTR_ATIME ≠ 0 then some (arg.atime, arg.atimensec)
       else none) ∧
    (setattrValues arg).mtime =
      (if arg.valid &&& FATTR_MTIME ≠ 0 then some (arg.mtime, arg.mtimensec)
       else none) ∧
    (setattrValues arg).fh =
      (if arg.valid &&& FATTR_FH ≠ 0 then some arg.fh else none) ∧
    (setattrValues arg).crtime = none ∧
    (setattrValues arg).chgtime = none ∧
    (setattrValues arg).bkuptime = none ∧
    (setattrValues arg).flags = none := by
  refine ⟨by simp [dispatch, stateChecks, hi, hd, invoke], ?_⟩
  simp [setattrValues, ite_not]

/-- C7 witness: with only the size bit (`FATTR_SIZE`) set in the validity
bitmask, only `size` is surfaced as `some`; all other attributes are `none`. -/
theorem setattr_bitmask_options_witness :
    (⟨7, 8, true, false⟩ : Session).initialized = true ∧
    (⟨7, 8, true, false⟩ : Session).destroyed = false ∧
    (dispatch ⟨8, 4, 0, 0, 0,
        .SetAttr ⟨FATTR_SIZE, 1, 4096, 2, 3, 4, 5, 6, 7, 9⟩⟩
      ⟨7, 8, true, false⟩ (.ok ())).calls =
      [.setattr 4 ⟨none, none, none, some 4096, none, none, none,
        none, none, none, none⟩] := by
  refine ⟨by decide, by decide, ?_⟩
  rw [(setattr_bitmask_options 8 4 0 0 0 ⟨FATTR_SIZE, 1, 4096, 2, 3, 4, 5, 6, 7, 9⟩
    ⟨7, 8, true, false⟩ (.ok ()) (by decide) (by decide)).1]
  decide

/-- C8: a `forget` dispatched in the initialized, non-destroyed state invokes
the filesystem's `forget` with the node id and nlookup count, sends no reply
and hands out no reply object: zero bytes are written to the transport. -/
theorem forget_no_reply (u nid ui g p : Nat) (arg : fuse_forget_in)
    (se : Session) (initRes : Except Int Unit)
    (hi : se.initialized = true) (hd : se.destroyed = false) :
    dispatch ⟨u, nid, ui, g, p, .Forget arg⟩ se initRes =
      { session := se, calls := [.forget nid arg.nlookup], sent := [],
        handed := [], panicked := false } := by
  simp [dispatch, stateChecks, hi, hd]

/-- C8 witness: a concrete `forget` produces one `forget` invocation and no
reply of any kind. -/
theorem forget_no_reply_witness :
    (⟨7, 8, true, false⟩ : Session).initialized = true ∧
    (⟨7, 8, true, false⟩ : Session).destroyed = false ∧
    dispatch ⟨11, 9, 0, 0, 0, .Forget ⟨5⟩⟩ ⟨7, 8, true, false⟩ (.ok ()) =
      { session := ⟨7, 8, true, false⟩, calls := [.forget 9 5], sent := [],
        handed := [], panicked := false } := by
  exact ⟨by decide, by decide,
    forget_no_reply 11 9 0 0 0 ⟨5⟩ ⟨7, 8, true, false⟩ (.ok ())
      (by decide) (by decide)⟩

/-- C9 counterexample: an interrupt dispatched on an uninitialized session is
replied with EIO by the `_ if !se.initialized` guard, not with ENOSYS, so
"always replied to with ENOSYS" fails as stated. -/
theorem interrupt_claim_counterexample :
    (dispatch ⟨1, 0, 0, 0, 0, .Interrupt ⟨77⟩⟩ ⟨0, 0, false, false⟩
        (.ok ())).sent = [⟨1, .error EIO⟩] ∧
    ReplyKind.error EIO ≠ ReplyKind.error ENOSYS := by
  decide

/-- C9 (amended): an interrupt dispatched in the initialized, non-destroyed
state is replied with ENOSYS; in every session state the interrupt is never
forwarded to the filesystem capability and never escalates beyond the
dispatcher's own single reply (no panic, session unchanged). -/
theorem interrupt_enosys (u nid ui g p : Nat) (arg : fuse_interrupt_in)
    (se : Session) (initRes : Except Int Unit) :
    (se.initialized = true → se.destroyed = false →
      dispatch ⟨u, nid, ui, g, p, .Interrupt arg⟩ se initRes =
        sendReply se u (.error ENOSYS)) ∧
    (dispatch ⟨u, nid, ui, g, p, .Interrupt arg⟩ se initRes).calls = [] ∧
    (dispatch ⟨u, nid, ui, g, p, .Interrupt arg⟩ se initRes).handed = [] ∧
    (dispatch ⟨u, nid, ui, g, p, .Interrupt arg⟩ se initRes).panicked = false ∧
    (dispatch ⟨u, nid, ui, g, p, .Interrupt arg⟩ se initRes).session = se := by
  refine ⟨fun hi hd => by simp [dispatch, stateChecks, hi, hd], ?_, ?_, ?_, ?_⟩ <;>
    (simp only [dispatch, stateChecks]; split <;> simp [sendReply]) <;>
    (split <;> simp [sendReply])

/-- C9 witness: a concrete interrupt on an initialized session is replied
with ENOSYS and forwards nothing. -/
theorem interrupt_enosys_witness :
    (⟨7, 8, true, false⟩ : Session).initialized = true ∧
    (⟨7, 8, true, false⟩ : Session).destroyed = false ∧
    dispatch ⟨13, 0, 0, 0, 0, .Interrupt ⟨77⟩⟩ ⟨7, 8, true, false⟩ (.ok ()) =
      sendReply ⟨7, 8, true, false⟩ 13 (.error ENOSYS) := by
  exact ⟨by decide, by decide,
    (interrupt_enosys 13 0 0 0 0 ⟨77⟩ ⟨7, 8, true, false⟩ (.ok ())).1
      (by decide) (by decide)⟩

/-- Replies and reply objects produced by `stateChecks` keep the bound
correlation id when the wrapped outcome does. -/
theorem uniqueBound_stateChecks (se : Session) (u : Nat) (d : DispatchResult)
    (h : (∀ r ∈ d.sent, r.unique = u) ∧ (∀ o ∈ d.handed, o.unique = u)) :
    (∀ r ∈ (stateChecks se u d).sent, r.unique = u) ∧
    (∀ o ∈ (stateChecks se u d).handed, o.unique = u) := by
  unfold stateChecks
  split
  · simp [sendReply]
  · split
    · simp [sendReply]
    · exact h

/-- C6: every reply the dispatcher sends itself and every reply object it
hands to the filesystem capability is bound to exactly the correlation id
(`unique`) of the originating request; consequently the correlation id
appears unchanged in the reply header bytes of every sent reply. -/
theorem reply_correlation_id (req : Request) (se : Session)
    (initRes : Except Int Unit) :
    (∀ r ∈ (dispatch req se initRes).sent, r.unique = req.unique) ∧
    (∀ o ∈ (dispatch req se initRes).handed, o.unique = req.unique) ∧
    (req.unique < 2 ^ 64 →
      ∀ r ∈ (dispatch req se initRes).sent, ∀ len errv : Nat,
        fromBytesLE ((replyHeaderBytes len errv r.unique).drop 8)
          = req.unique) := by
  have key : (∀ r ∈ (dispatch req se initRes).sent, r.unique = req.unique) ∧
      (∀ o ∈ (dispatch req se initRes).handed, o.unique = req.unique) := by
    obtain ⟨u, nid, ui, g, p, op⟩ := req
    cases op <;>
      (simp only [dispatch]
       try refine uniqueBound_stateChecks _ _ _ ?_
       cases initRes
       repeat' split
       all_goals simp [sendReply, invoke])
  refine ⟨key.1, key.2, fun h64 r hr len errv => ?_⟩
  rw [replyHeaderBytes_drop, fromBytesLE_toBytesLE, key.1 r hr]
  have h : (256 : Nat) ^ 8 = 2 ^ 64 := by norm_num
  rw [h]
  exact Nat.mod_eq_of_lt h64

/-- C6 witness: a concrete `getattr` request with correlation id 42 hands the
filesystem a reply object bound to 42, and 42 survives the reply header
byte round-trip. -/
theorem reply_correlation_id_witness :
    (ReplyObject.mk 42 none) ∈
      (dispatch ⟨42, 3, 0, 0, 0, .GetAttr⟩ ⟨7, 8, true, false⟩
        (.ok ())).handed ∧
    (ReplyObject.mk 42 none).unique = 42 := by
  refine ⟨by decide, ?_⟩
  exact (reply_correlation_id ⟨42, 3, 0, 0, 0, .GetAttr⟩ ⟨7, 8, true, false⟩
    (.ok ())).2.1 ⟨42, none⟩ (by decide)

end FuseLL
